import Mathlib

/-!
Verification of the shader specialization key subsystem
(`src/shader_recompiler/specialization.h`): the data model of the
per-resource specialization records, the specialization builder
(`StageSpecialization` constructor together with its `ForEachSharp`
helpers), and the gated equality comparator (`operator==`).

External collaborators (hardware descriptor records, the fetch-shader
parser, runtime configuration, tessellation constants) are modelled as
plain data carrying exactly the values the core reads from them.
Machine integers are modelled as `Nat`; the 14-bit `stride` bit-field
truncation is made explicit with `% 2 ^ 14`; the `std::bitset<64>` is a
`Nat` bit mask whose out-of-range `set` failure is modelled by the
builder returning `none`.
-/

set_option maxHeartbeats 1600000

namespace ShaderSpec

/-- GPU pipeline stage (the emulator's `Shader::Stage` enum). -/
inductive Stage where
  | Vertex
  | Hull
  | Domain
  | Export
  | Geometry
  | Fragment
  | Compute
deriving DecidableEq

/-- Logical stage classification (the emulator's `Shader::LogicalStage`). -/
inductive LogicalStage where
  | Vertex
  | TessellationControl
  | TessellationEval
  | Geometry
  | Fragment
  | Compute
deriving DecidableEq

/-- Image dimensionality (the emulator's `AmdGpu::ImageType`). -/
inductive ImageType where
  | Color1D
  | Color1DArray
  | Color2D
  | Color2DArray
  | Color2DMsaa
  | Color3D
  | Cube
deriving DecidableEq

/-- Modelled from the spec: `RuntimeInfo` is an opaque value copy of the
execution-time configuration, with tessellation sub-records (`hs_info`,
`vs_info`) that the builder may overwrite from tessellation constants. -/
structure RuntimeInfo where
  hs_info : Nat
  vs_info : Nat
  rest : Nat
deriving DecidableEq

/-- Capability profile; only the legacy vertex-attribute flag is read. -/
structure Profile where
  support_legacy_vertex_attributes : Bool
deriving DecidableEq

/-- Modelled from the spec: parsed fetch-shader data; each attribute
resolves (through its buffer sharp) to a number class, or fails. -/
structure FetchShaderData where
  attributes : List (Option Nat)
deriving DecidableEq

/-- Per-vertex-attribute record (`VsAttribSpecialization`);
`num_class` models `AmdGpu::NumberClass`, zero-initialized. -/
structure VsAttribSpecialization where
  num_class : Nat := 0
deriving DecidableEq

instance : Inhabited VsAttribSpecialization := ⟨{}⟩

/-- Per-buffer record (`BufferSpecialization`): `stride` is the 14-bit
bit-field, `is_storage` the 1-bit flag, `size` the u32 field. Value
initialization zeroes all of them. -/
structure BufferSpecialization where
  stride : Nat := 0
  is_storage : Bool := false
  size : Nat := 0
deriving DecidableEq

instance : Inhabited BufferSpecialization := ⟨{}⟩

/-- The custom `BufferSpecialization::operator==`:
`stride == other.stride && is_storage == other.is_storage &&
 (size >= other.is_storage || is_storage)`, where the 1-bit `is_storage`
field converts to `0`/`1` in the comparison with `size`. -/
def bufferBeq (a b : BufferSpecialization) : Bool :=
  decide (a.stride = b.stride) && decide (a.is_storage = b.is_storage) &&
    (decide (a.size ≥ (if b.is_storage then 1 else 0)) || a.is_storage)

/-- Per-texture-buffer record (`TextureBufferSpecialization`);
`dst_select` models `AmdGpu::CompMapping`, `num_conversion` models
`AmdGpu::NumberConversion`, zero-initialized. -/
structure TextureBufferSpecialization where
  is_integer : Bool := false
  dst_select : Nat := 0
  num_conversion : Nat := 0
deriving DecidableEq

instance : Inhabited TextureBufferSpecialization := ⟨{}⟩

/-- Per-image record (`ImageSpecialization`), default type `Color2D`. -/
structure ImageSpecialization where
  type : ImageType := ImageType.Color2D
  is_integer : Bool := false
  is_storage : Bool := false
  dst_select : Nat := 0
  num_conversion : Nat := 0
deriving DecidableEq

instance : Inhabited ImageSpecialization := ⟨{}⟩

/-- Per-fmask record (`FMaskSpecialization`), value-initialized to 0. -/
structure FMaskSpecialization where
  width : Nat := 0
  height : Nat := 0
deriving DecidableEq

instance : Inhabited FMaskSpecialization := ⟨{}⟩

/-- Per-sampler record (`SamplerSpecialization`). -/
structure SamplerSpecialization where
  force_unnormalized : Bool := false
deriving DecidableEq

instance : Inhabited SamplerSpecialization := ⟨{}⟩

/-- Resolved buffer hardware record: the values the builder reads from a
buffer sharp (`GetStride`, `GetSize`) and from `desc.IsStorage(sharp)`. -/
structure BufferSharp where
  stride : Nat
  size : Nat
  is_storage : Bool
deriving DecidableEq

/-- Resolved texture-buffer hardware record. -/
structure TexBufferSharp where
  is_integer : Bool
  dst_select : Nat
  num_conversion : Nat
deriving DecidableEq

/-- Resolved image hardware record, with `is_storage` standing for
`desc.IsStorage(sharp)`. -/
structure ImageSharp where
  type : ImageType
  is_integer : Bool
  is_storage : Bool
  dst_select : Nat
  num_conversion : Nat
deriving DecidableEq

/-- Resolved fmask hardware record (width and height of the image). -/
structure FMaskSharp where
  width : Nat
  height : Nat
deriving DecidableEq

/-- Resolved sampler hardware record. -/
structure SamplerSharp where
  force_unnormalized : Bool
deriving DecidableEq

/-- The descriptor provider (`Shader::Info`) as seen by this core: the
stage metadata and, per category, the ordered descriptor list where each
entry is the outcome of `desc.GetSharp(info)` (`none` when resolution
fails). `tess_constants` models the tessellation constant buffer read. -/
structure Info where
  stage : Stage
  l_stage : LogicalStage
  has_readconst : Bool
  fetch_shader : Option FetchShaderData
  buffers : List (Option BufferSharp)
  texture_buffers : List (Option TexBufferSharp)
  images : List (Option ImageSharp)
  fmasks : List (Option FMaskSharp)
  samplers : List (Option SamplerSharp)
  tess_constants : Nat
deriving DecidableEq

/-- Modelled from the spec: the external fetch-shader parser
(`Gcn::ParseFetchShader`) returns the provider's optional parsed
fetch-shader data (absent if the provider has no fetch shader). -/
def parseFetchShader (info : Info) : Option FetchShaderData :=
  info.fetch_shader

/-- Modelled from the spec: the tessellation step of the builder reads
the tessellation constant buffer and initializes `hs_info` (tessellation
control) or `vs_info` (tessellation evaluation) from it. -/
def tessInit (info : Info) (rt : RuntimeInfo) : RuntimeInfo :=
  if info.l_stage = LogicalStage.TessellationControl then
    { rt with hs_info := info.tess_constants }
  else if info.l_stage = LogicalStage.TessellationEval then
    { rt with vs_info := info.tess_constants }
  else rt

/-- `StageSpecialization::MaxStageResources`: the bitset capacity. -/
def MaxStageResources : Nat := 64

/-- Builder fill for `vs_attribs`: record the attribute's number class. -/
def fillVsAttrib (c : Nat) : VsAttribSpecialization :=
  { num_class := c }

/-- Builder fill for `buffers`: `spec.stride = sharp.GetStride()` (14-bit
bit-field assignment truncates), `spec.is_storage = desc.IsStorage(sharp)`,
and `spec.size = sharp.GetSize()` only when not storage. -/
def fillBuffer (s : BufferSharp) : BufferSpecialization :=
  { stride := s.stride % 2 ^ 14
    is_storage := s.is_storage
    size := if s.is_storage then 0 else s.size }

/-- Builder fill for `tex_buffers`. -/
def fillTexBuffer (s : TexBufferSharp) : TextureBufferSpecialization :=
  { is_integer := s.is_integer
    dst_select := s.dst_select
    num_conversion := s.num_conversion }

/-- Builder fill for `images`: `dst_select` is populated only when the
image is bound as storage; otherwise it keeps its default value. -/
def fillImage (s : ImageSharp) : ImageSpecialization :=
  { type := s.type
    is_integer := s.is_integer
    is_storage := s.is_storage
    dst_select := if s.is_storage then s.dst_select else 0
    num_conversion := s.num_conversion }

/-- Builder fill for `fmasks`. -/
def fillFMask (s : FMaskSharp) : FMaskSpecialization :=
  { width := s.width
    height := s.height }

/-- Builder fill for `samplers`. -/
def fillSampler (s : SamplerSharp) : SamplerSpecialization :=
  { force_unnormalized := s.force_unnormalized }

/-- Record produced for one descriptor: the default record when the
sharp did not resolve, the filled record otherwise. -/
def fillOpt (fill : σ → α) (dflt : α) : Option σ → α
  | none => dflt
  | some s => fill s

/-- The non-binding `ForEachSharp` overload: append one record per
descriptor; leave the default record when resolution fails, otherwise
run the fill function on the resolved sharp. -/
def forEachSharpPlain (fill : σ → α) (dflt : α) : List (Option σ) → List α
  | [] => []
  | none :: ds => dflt :: forEachSharpPlain fill dflt ds
  | some s :: ds => fill s :: forEachSharpPlain fill dflt ds

/-- The binding-tracking `ForEachSharp` overload: per descriptor, append
one record; on failed resolution just advance the binding counter; on
success `bitset.set(binding++)` then fill. `std::bitset::set` throws
`std::out_of_range` for an index at or above the capacity, modelled by
returning `none`. Returns the records, the final counter and the bits. -/
def forEachSharpBind (fill : σ → α) (dflt : α) :
    List (Option σ) → Nat → Nat → Option (List α × Nat × Nat)
  | [], binding, bits => some ([], binding, bits)
  | none :: ds, binding, bits =>
      (forEachSharpBind fill dflt ds (binding + 1) bits).map
        (fun r => (dflt :: r.1, r.2.1, r.2.2))
  | some s :: ds, binding, bits =>
      if binding < MaxStageResources then
        (forEachSharpBind fill dflt ds (binding + 1) (bits ||| 2 ^ binding)).map
          (fun r => (fill s :: r.1, r.2.1, r.2.2))
      else none

/-- The specialization value (`StageSpecialization`): `info` keeps the
borrowed provider, `bitset` is the validity bit mask, `start` models the
opaque `Backend::Bindings` value. -/
structure StageSpecialization where
  info : Info
  runtime_info : RuntimeInfo
  fetch_shader_data : Option FetchShaderData
  vs_attribs : List VsAttribSpecialization
  bitset : Nat
  buffers : List BufferSpecialization
  tex_buffers : List TextureBufferSpecialization
  images : List ImageSpecialization
  fmasks : List FMaskSpecialization
  samplers : List SamplerSpecialization
  start : Nat
deriving DecidableEq

/-- The implicit read-constant offset of the shared binding counter:
`u32 binding{}; if (info->has_readconst) binding++;`. -/
def rcOffset (info : Info) : Nat :=
  if info.has_readconst then 1 else 0

/-- The `StageSpecialization` constructor. `ParseFetchShader` is called
unconditionally; the vertex-stage/non-legacy-profile test gates only the
`vs_attribs` specialization pass. Then the binding counter starts at 0,
skips one slot for a declared read-constant, and the four tracked
categories run in the fixed order buffers, texture buffers, images,
fmasks, threading the counter and the bit mask; samplers are processed
without binding tracking; finally the tessellation step may rewrite
`runtime_info`. Returns `none` when a `bitset.set` index is out of
range. -/
def build (info : Info) (rt : RuntimeInfo) (profile : Profile) (start : Nat) :
    Option StageSpecialization :=
  let fsd := parseFetchShader info
  let vsa :=
    match fsd with
    | some f =>
        if info.stage = Stage.Vertex ∧ profile.support_legacy_vertex_attributes = false then
          forEachSharpPlain fillVsAttrib default f.attributes
        else []
    | none => []
  (forEachSharpBind fillBuffer default info.buffers (rcOffset info) 0).bind fun r1 =>
  (forEachSharpBind fillTexBuffer default info.texture_buffers r1.2.1 r1.2.2).bind fun r2 =>
  (forEachSharpBind fillImage default info.images r2.2.1 r2.2.2).bind fun r3 =>
  (forEachSharpBind fillFMask default info.fmasks r3.2.1 r3.2.2).map fun r4 =>
  { info := info
    runtime_info := tessInit info rt
    fetch_shader_data := fsd
    vs_attribs := vsa
    bitset := r4.2.2
    buffers := r1.1
    tex_buffers := r2.1
    images := r3.1
    fmasks := r4.1
    samplers := forEachSharpPlain fillSampler default info.samplers
    start := start }

/-- Ungated element-wise comparison loop: for `i` below the left list's
length, compare against the right list's entry (out-of-range reads, which
the same-shape precondition rules out, yield the default record). -/
def elementwiseEq [Inhabited α] [DecidableEq α] : List α → List α → Bool
  | [], _ => true
  | x :: xs, ys => decide (x = ys.headD default) && elementwiseEq xs (ys.drop 1)

/-- Gated comparison loop of `operator==`:
`if (other.bitset[binding++] && lhs[i] != rhs[i]) return false;`.
Returns the verdict and the advanced binding counter. -/
def gatedEq [Inhabited α] (eqf : α → α → Bool) (bits : Nat) :
    Nat → List α → List α → Bool × Nat
  | binding, [], _ => (true, binding)
  | binding, x :: xs, ys =>
      if bits.testBit binding && ! eqf x (ys.headD default) then
        (false, binding + 1)
      else
        gatedEq eqf bits (binding + 1) xs (ys.drop 1)

/-- `StageSpecialization::operator==` (`Equal(candidate, cached)` with
`a` the candidate and `b` the cached key): exact checks on `start`,
`runtime_info`, `fetch_shader_data` and `vs_attribs`; then the
read-constant presence check; then the four gated loops against the
cached key's bitset, threading the recomputed binding counter; finally
the ungated sampler loop. -/
def specEq (a b : StageSpecialization) : Bool :=
  decide (a.start = b.start) &&
  decide (a.runtime_info = b.runtime_info) &&
  decide (a.fetch_shader_data = b.fetch_shader_data) &&
  elementwiseEq a.vs_attribs b.vs_attribs &&
  decide (a.info.has_readconst = b.info.has_readconst) &&
  (match gatedEq bufferBeq b.bitset (rcOffset a.info) a.buffers b.buffers with
   | (false, _) => false
   | (true, b1) =>
     match gatedEq (fun x y => decide (x = y)) b.bitset b1 a.tex_buffers b.tex_buffers with
     | (false, _) => false
     | (true, b2) =>
       match gatedEq (fun x y => decide (x = y)) b.bitset b2 a.images b.images with
       | (false, _) => false
       | (true, b3) =>
         match gatedEq (fun x y => decide (x = y)) b.bitset b3 a.fmasks b.fmasks with
         | (false, _) => false
         | (true, _) => elementwiseEq a.samplers b.samplers)

/-! Characterization lemmas for the comparison loops. -/

theorem headD_eq_getD (ys : List α) (d : α) : ys.headD d = ys.getD 0 d := by
  cases ys <;> rfl

theorem getD_drop_one (ys : List α) (i : Nat) (d : α) :
    (ys.drop 1).getD i d = ys.getD (i + 1) d := by
  cases ys <;> rfl

theorem forall_lt_succ_iff {n : Nat} {Q : Nat → Prop} :
    (∀ i, i < n + 1 → Q i) ↔ Q 0 ∧ ∀ i, i < n → Q (i + 1) := by
  constructor
  · intro h
    exact ⟨h 0 (Nat.succ_pos n), fun i hi => h (i + 1) (Nat.succ_lt_succ hi)⟩
  · rintro ⟨h0, h⟩ i hi
    cases i with
    | zero => exact h0
    | succ j => exact h j (Nat.lt_of_succ_lt_succ hi)

theorem elementwiseEq_eq_true_iff [Inhabited α] [DecidableEq α] (xs : List α) :
    ∀ ys : List α,
      elementwiseEq xs ys = true ↔
        ∀ i, i < xs.length → xs.getD i default = ys.getD i default := by
  induction xs with
  | nil => intro ys; simp [elementwiseEq]
  | cons x xs ih =>
    intro ys
    simp only [elementwiseEq, Bool.and_eq_true, decide_eq_true_eq, ih (ys.drop 1),
      List.length_cons, forall_lt_succ_iff, headD_eq_getD, getD_drop_one,
      List.getD_cons_zero, List.getD_cons_succ]

theorem gatedEq_fst_eq_true_iff [Inhabited α] (eqf : α → α → Bool) (bits : Nat)
    (xs : List α) :
    ∀ (binding : Nat) (ys : List α),
      (gatedEq eqf bits binding xs ys).1 = true ↔
        ∀ i, i < xs.length → bits.testBit (binding + i) = true →
          eqf (xs.getD i default) (ys.getD i default) = true := by
  induction xs with
  | nil => intro binding ys; simp [gatedEq]
  | cons x xs ih =>
    intro binding ys
    by_cases h : (bits.testBit binding && ! eqf x (ys.headD default)) = true
    · rw [show gatedEq eqf bits binding (x :: xs) ys =
          if bits.testBit binding && ! eqf x (ys.headD default) then (false, binding + 1)
          else gatedEq eqf bits (binding + 1) xs (ys.drop 1) from rfl, if_pos h]
      simp only [Bool.and_eq_true, Bool.not_eq_true'] at h
      simp only [List.length_cons, forall_lt_succ_iff]
      constructor
      · intro hfalse; exact absurd hfalse (by simp)
      · rintro ⟨h0, -⟩
        have := h0 (by simpa using h.1)
        rw [List.getD_cons_zero, ← headD_eq_getD, h.2] at this
        exact absurd this (by simp)
    · rw [show gatedEq eqf bits binding (x :: xs) ys =
          if bits.testBit binding && ! eqf x (ys.headD default) then (false, binding + 1)
          else gatedEq eqf bits (binding + 1) xs (ys.drop 1) from rfl, if_neg h]
      rw [ih (binding + 1) (ys.drop 1)]
      simp only [List.length_cons, forall_lt_succ_iff, Nat.add_zero,
        List.getD_cons_zero, List.getD_cons_succ, getD_drop_one]
      constructor
      · intro hrec
        refine ⟨?_, fun i hi ht => ?_⟩
        · intro ht
          rw [ht, Bool.true_and, Bool.not_eq_true', Bool.not_eq_false] at h
          rw [headD_eq_getD] at h
          exact h
        · have : bits.testBit (binding + 1 + i) = true := by
            have harith : binding + 1 + i = binding + (i + 1) := by omega
            rw [harith]; exact ht
          exact hrec i hi this
      · rintro ⟨h0, hrest⟩ i hi ht
        have harith : binding + 1 + i = binding + (i + 1) := by omega
        rw [harith] at ht
        exact hrest i hi ht

theorem gatedEq_snd_of_fst [Inhabited α] (eqf : α → α → Bool) (bits : Nat)
    (xs : List α) :
    ∀ (binding : Nat) (ys : List α),
      (gatedEq eqf bits binding xs ys).1 = true →
      (gatedEq eqf bits binding xs ys).2 = binding + xs.length := by
  induction xs with
  | nil => intro binding ys _; simp [gatedEq]
  | cons x xs ih =>
    intro binding ys h
    rw [show gatedEq eqf bits binding (x :: xs) ys =
        if bits.testBit binding && ! eqf x (ys.headD default) then (false, binding + 1)
        else gatedEq eqf bits (binding + 1) xs (ys.drop 1) from rfl] at h ⊢
    by_cases hc : (bits.testBit binding && ! eqf x (ys.headD default)) = true
    · rw [if_pos hc] at h; exact absurd h (by simp)
    · rw [if_neg hc] at h ⊢
      rw [ih (binding + 1) (ys.drop 1) h]
      simp only [List.length_cons]
      omega

theorem specEq_eq_bool (a b : StageSpecialization) :
    specEq a b =
      (decide (a.start = b.start) &&
       decide (a.runtime_info = b.runtime_info) &&
       decide (a.fetch_shader_data = b.fetch_shader_data) &&
       elementwiseEq a.vs_attribs b.vs_attribs &&
       decide (a.info.has_readconst = b.info.has_readconst) &&
       ((gatedEq bufferBeq b.bitset (rcOffset a.info) a.buffers b.buffers).1 &&
        (gatedEq (fun x y => decide (x = y)) b.bitset
          (rcOffset a.info + a.buffers.length) a.tex_buffers b.tex_buffers).1 &&
        (gatedEq (fun x y => decide (x = y)) b.bitset
          (rcOffset a.info + a.buffers.length + a.tex_buffers.length)
          a.images b.images).1 &&
        (gatedEq (fun x y => decide (x = y)) b.bitset
          (rcOffset a.info + a.buffers.length + a.tex_buffers.length + a.images.length)
          a.fmasks b.fmasks).1 &&
        elementwiseEq a.samplers b.samplers)) := by
  unfold specEq
  rcases h1 : gatedEq bufferBeq b.bitset (rcOffset a.info) a.buffers b.buffers
    with ⟨f1, s1⟩
  cases f1 with
  | false => simp [h1]
  | true =>
    have hs1 : s1 = rcOffset a.info + a.buffers.length := by
      have := gatedEq_snd_of_fst bufferBeq b.bitset a.buffers (rcOffset a.info) b.buffers
      rw [h1] at this; exact this rfl
    subst hs1
    rcases h2 : gatedEq (fun x y => decide (x = y)) b.bitset
        (rcOffset a.info + a.buffers.length) a.tex_buffers b.tex_buffers with ⟨f2, s2⟩
    cases f2 with
    | false => simp [h1, h2]
    | true =>
      have hs2 : s2 = rcOffset a.info + a.buffers.length + a.tex_buffers.length := by
        have := gatedEq_snd_of_fst (fun x y => decide (x = y)) b.bitset a.tex_buffers
          (rcOffset a.info + a.buffers.length) b.tex_buffers
        rw [h2] at this; exact this rfl
      subst hs2
      rcases h3 : gatedEq (fun x y => decide (x = y)) b.bitset
          (rcOffset a.info + a.buffers.length + a.tex_buffers.length)
          a.images b.images with ⟨f3, s3⟩
      cases f3 with
      | false => simp [h1, h2, h3]
      | true =>
        have hs3 : s3 = rcOffset a.info + a.buffers.length + a.tex_buffers.length +
            a.images.length := by
          have := gatedEq_snd_of_fst (fun x y => decide (x = y)) b.bitset a.images
            (rcOffset a.info + a.buffers.length + a.tex_buffers.length) b.images
          rw [h3] at this; exact this rfl
        subst hs3
        rcases h4 : gatedEq (fun x y => decide (x = y)) b.bitset
            (rcOffset a.info + a.buffers.length + a.tex_buffers.length + a.images.length)
            a.fmasks b.fmasks with ⟨f4, s4⟩
        cases f4 with
        | false => simp [h1, h2, h3, h4]
        | true => simp [h1, h2, h3, h4]

theorem specEq_eq_true_iff (a b : StageSpecialization) :
    specEq a b = true ↔
      (a.start = b.start ∧
       a.runtime_info = b.runtime_info ∧
       a.fetch_shader_data = b.fetch_shader_data ∧
       (∀ i, i < a.vs_attribs.length →
          a.vs_attribs.getD i default = b.vs_attribs.getD i default) ∧
       a.info.has_readconst = b.info.has_readconst ∧
       (∀ i, i < a.buffers.length →
          b.bitset.testBit (rcOffset a.info + i) = true →
          bufferBeq (a.buffers.getD i default) (b.buffers.getD i default) = true) ∧
       (∀ i, i < a.tex_buffers.length →
          b.bitset.testBit (rcOffset a.info + a.buffers.length + i) = true →
          a.tex_buffers.getD i default = b.tex_buffers.getD i default) ∧
       (∀ i, i < a.images.length →
          b.bitset.testBit
            (rcOffset a.info + a.buffers.length + a.tex_buffers.length + i) = true →
          a.images.getD i default = b.images.getD i default) ∧
       (∀ i, i < a.fmasks.length →
          b.bitset.testBit
            (rcOffset a.info + a.buffers.length + a.tex_buffers.length +
              a.images.length + i) = true →
          a.fmasks.getD i default = b.fmasks.getD i default) ∧
       (∀ i, i < a.samplers.length →
          a.samplers.getD i default = b.samplers.getD i default)) := by
  rw [specEq_eq_bool]
  simp only [Bool.and_eq_true, decide_eq_true_eq, gatedEq_fst_eq_true_iff,
    elementwiseEq_eq_true_iff]
  tauto

/-! Characterization lemmas for the builder loops. -/

theorem forEachSharpPlain_eq_map (fill : σ → α) (dflt : α) (ds : List (Option σ)) :
    forEachSharpPlain fill dflt ds = ds.map (fillOpt fill dflt) := by
  induction ds with
  | nil => rfl
  | cons d ds ih => cases d <;> simp [forEachSharpPlain, fillOpt, ih]

theorem forEachSharpBind_some_spec (fill : σ → α) (dflt : α) (ds : List (Option σ)) :
    ∀ (binding bits : Nat) (l : List α) (b2 bs : Nat),
      forEachSharpBind fill dflt ds binding bits = some (l, b2, bs) →
      l = ds.map (fillOpt fill dflt) ∧
      b2 = binding + ds.length := by
  induction ds with
  | nil =>
    intro binding bits l b2 bs h
    simp only [forEachSharpBind, Option.some_inj, Prod.mk.injEq] at h
    obtain ⟨rfl, rfl, rfl⟩ := h
    simp
  | cons d ds ih =>
    intro binding bits l b2 bs h
    cases d with
    | none =>
      simp only [forEachSharpBind, Option.map_eq_some'] at h
      obtain ⟨⟨l1, b1, bs1⟩, hrec, heq⟩ := h
      simp only [Prod.mk.injEq] at heq
      obtain ⟨rfl, rfl, rfl⟩ := heq
      obtain ⟨rfl, rfl⟩ := ih (binding + 1) bits l1 b1 bs1 hrec
      simp only [List.map_cons, List.length_cons, fillOpt, true_and]
      omega
    | some s =>
      by_cases hlt : binding < MaxStageResources
      · simp only [forEachSharpBind, if_pos hlt, Option.map_eq_some'] at h
        obtain ⟨⟨l1, b1, bs1⟩, hrec, heq⟩ := h
        simp only [Prod.mk.injEq] at heq
        obtain ⟨rfl, rfl, rfl⟩ := heq
        obtain ⟨rfl, rfl⟩ := ih (binding + 1) (bits ||| 2 ^ binding) l1 b1 bs1 hrec
        simp only [List.map_cons, List.length_cons, fillOpt, true_and]
        omega
      · simp only [forEachSharpBind, if_neg hlt] at h
        exact absurd h (by simp)

theorem forEachSharpBind_bits (fill : σ → α) (dflt : α) (ds : List (Option σ)) :
    ∀ (binding bits : Nat) (l : List α) (b2 bs : Nat),
      forEachSharpBind fill dflt ds binding bits = some (l, b2, bs) →
      ∀ j, bs.testBit j = true ↔
        (bits.testBit j = true ∨
         ∃ i, i < ds.length ∧ j = binding + i ∧ (ds.getD i none).isSome = true) := by
  induction ds with
  | nil =>
    intro binding bits l b2 bs h j
    simp only [forEachSharpBind, Option.some_inj, Prod.mk.injEq] at h
    obtain ⟨rfl, rfl, rfl⟩ := h
    simp
  | cons d ds ih =>
    intro binding bits l b2 bs h j
    cases d with
    | none =>
      simp only [forEachSharpBind, Option.map_eq_some'] at h
      obtain ⟨⟨l1, b1, bs1⟩, hrec, heq⟩ := h
      simp only [Prod.mk.injEq] at heq
      obtain ⟨rfl, rfl, rfl⟩ := heq
      rw [ih (binding + 1) bits l1 b1 bs1 hrec j]
      constructor
      · rintro (hb | ⟨i, hi, hj, hs⟩)
        · exact Or.inl hb
        · exact Or.inr ⟨i + 1, by simpa using Nat.succ_lt_succ hi, by omega,
            by simpa using hs⟩
      · rintro (hb | ⟨i, hi, hj, hs⟩)
        · exact Or.inl hb
        · cases i with
          | zero => simp at hs
          | succ k =>
            exact Or.inr ⟨k, by simpa [List.length_cons] using hi, by omega,
              by simpa using hs⟩
    | some s =>
      by_cases hlt : binding < MaxStageResources
      · simp only [forEachSharpBind, if_pos hlt, Option.map_eq_some'] at h
        obtain ⟨⟨l1, b1, bs1⟩, hrec, heq⟩ := h
        simp only [Prod.mk.injEq] at heq
        obtain ⟨rfl, rfl, rfl⟩ := heq
        rw [ih (binding + 1) (bits ||| 2 ^ binding) l1 b1 bs1 hrec j]
        rw [show (bits ||| 2 ^ binding).testBit j =
            (bits.testBit j || (2 ^ binding).testBit j) from Nat.testBit_or ..]
        rw [Nat.testBit_two_pow]
        constructor
        · rintro (hb | ⟨i, hi, hj, hs⟩)
          · rcases (Bool.or_eq_true _ _).mp hb with hb' | hb'
            · exact Or.inl hb'
            · refine Or.inr ⟨0, Nat.succ_pos _, ?_, by simp⟩
              have : binding = j := of_decide_eq_true hb'
              omega
          · exact Or.inr ⟨i + 1, by simpa using Nat.succ_lt_succ hi, by omega,
              by simpa using hs⟩
        · rintro (hb | ⟨i, hi, hj, hs⟩)
          · exact Or.inl (by rw [hb]; simp)
          · cases i with
            | zero =>
              refine Or.inl ?_
              have hjb : j = binding := by omega
              subst hjb
              simp
            | succ k =>
              exact Or.inr ⟨k, by simpa [List.length_cons] using hi, by omega,
                by simpa using hs⟩
      · simp only [forEachSharpBind, if_neg hlt] at h
        exact absurd h (by simp)

theorem forEachSharpBind_isSome (fill : σ → α) (dflt : α) (ds : List (Option σ)) :
    ∀ (binding bits : Nat),
      (forEachSharpBind fill dflt ds binding bits).isSome = true ↔
        ∀ i, i < ds.length → (ds.getD i none).isSome = true →
          binding + i < MaxStageResources := by
  induction ds with
  | nil => intro binding bits; simp [forEachSharpBind]
  | cons d ds ih =>
    intro binding bits
    cases d with
    | none =>
      simp only [forEachSharpBind, Option.isSome_map']
      rw [ih (binding + 1) bits]
      simp only [List.length_cons, forall_lt_succ_iff, List.getD_cons_zero,
        List.getD_cons_succ, Option.isSome_none]
      constructor
      · intro h
        refine ⟨by simp, fun i hi hs => ?_⟩
        have := h i hi hs; omega
      · rintro ⟨-, h⟩ i hi hs
        have := h i hi hs; omega
    | some s =>
      by_cases hlt : binding < MaxStageResources
      · simp only [forEachSharpBind, if_pos hlt, Option.isSome_map']
        rw [ih (binding + 1) (bits ||| 2 ^ binding)]
        simp only [List.length_cons, forall_lt_succ_iff, List.getD_cons_zero,
          List.getD_cons_succ, Option.isSome_some]
        constructor
        · intro h
          refine ⟨fun _ => by omega, fun i hi hs => ?_⟩
          have := h i hi hs; omega
        · rintro ⟨-, h⟩ i hi hs
          have := h i hi hs; omega
      · simp only [forEachSharpBind, if_neg hlt, Option.isSome_none,
          Bool.false_eq_true, false_iff, not_forall]
        refine ⟨0, ?_⟩
        simp only [List.length_cons, List.getD_cons_zero, Option.isSome_some,
          Nat.add_zero]
        exact ⟨Nat.succ_pos _, trivial, hlt⟩


theorem build_some_parts (info : Info) (rt : RuntimeInfo) (p : Profile) (st : Nat)
    (S : StageSpecialization) (h : build info rt p st = some S) :
    S.info = info ∧ S.start = st ∧ S.runtime_info = tessInit info rt ∧
    S.fetch_shader_data = info.fetch_shader ∧
    S.buffers = info.buffers.map (fillOpt fillBuffer default) ∧
    S.tex_buffers = info.texture_buffers.map (fillOpt fillTexBuffer default) ∧
    S.images = info.images.map (fillOpt fillImage default) ∧
    S.fmasks = info.fmasks.map (fillOpt fillFMask default) ∧
    S.samplers = forEachSharpPlain fillSampler default info.samplers ∧
    S.vs_attribs = (match info.fetch_shader with
      | some f =>
        if info.stage = Stage.Vertex ∧ p.support_legacy_vertex_attributes = false then
          forEachSharpPlain fillVsAttrib default f.attributes
        else []
      | none => []) ∧
    (∀ j, S.bitset.testBit j = true ↔
      ((∃ i, i < info.buffers.length ∧ j = rcOffset info + i ∧
          (info.buffers.getD i none).isSome = true) ∨
       (∃ i, i < info.texture_buffers.length ∧
          j = rcOffset info + info.buffers.length + i ∧
          (info.texture_buffers.getD i none).isSome = true) ∨
       (∃ i, i < info.images.length ∧
          j = rcOffset info + info.buffers.length + info.texture_buffers.length + i ∧
          (info.images.getD i none).isSome = true) ∨
       (∃ i, i < info.fmasks.length ∧
          j = rcOffset info + info.buffers.length + info.texture_buffers.length +
              info.images.length + i ∧
          (info.fmasks.getD i none).isSome = true))) := by
  unfold build at h
  simp only [Option.bind_eq_some, Option.map_eq_some'] at h
  obtain ⟨⟨l1, b1, bs1⟩, h1, ⟨l2, b2, bs2⟩, h2, ⟨l3, b3, bs3⟩, h3,
    ⟨l4, b4, bs4⟩, h4, hS⟩ := h
  obtain ⟨rfl, rfl⟩ := forEachSharpBind_some_spec fillBuffer default info.buffers
    (rcOffset info) 0 l1 b1 bs1 h1
  obtain ⟨rfl, rfl⟩ := forEachSharpBind_some_spec fillTexBuffer default
    info.texture_buffers _ bs1 l2 b2 bs2 h2
  obtain ⟨rfl, rfl⟩ := forEachSharpBind_some_spec fillImage default
    info.images _ bs2 l3 b3 bs3 h3
  obtain ⟨rfl, rfl⟩ := forEachSharpBind_some_spec fillFMask default
    info.fmasks _ bs3 l4 b4 bs4 h4
  subst hS
  refine ⟨rfl, rfl, rfl, rfl, rfl, rfl, rfl, rfl, rfl, rfl, ?_⟩
  intro j
  dsimp only at h2 h3 h4
  rw [forEachSharpBind_bits _ _ _ _ _ _ _ _ h4 j,
    forEachSharpBind_bits _ _ _ _ _ _ _ _ h3 j,
    forEachSharpBind_bits _ _ _ _ _ _ _ _ h2 j,
    forEachSharpBind_bits _ _ _ _ _ _ _ _ h1 j]
  simp only [Nat.zero_testBit, Bool.false_eq_true, false_or, or_assoc]

/-! Helper lemmas shared by the claim theorems. -/

theorem getD_set_ne (l : List α) (i j : Nat) (r d : α) (h : i ≠ j) :
    (l.set i r).getD j d = l.getD j d := by
  rw [List.getD_eq_getElem?_getD, List.getD_eq_getElem?_getD, List.getElem?_set_ne h]

theorem getD_map_of_lt (f : σ → α) (ds : List σ) (dA : α) (dS : σ) :
    ∀ i, i < ds.length → (ds.map f).getD i dA = f (ds.getD i dS) := by
  induction ds with
  | nil => intro i hi; exact absurd hi (by simp)
  | cons d ds ih =>
    intro i hi
    cases i with
    | zero => simp
    | succ k =>
      simp only [List.map_cons, List.getD_cons_succ]
      exact ih k (by simpa using Nat.lt_of_succ_lt_succ hi)

theorem bufferBeq_refl (a : BufferSpecialization) : bufferBeq a a = true := by
  unfold bufferBeq
  cases hs : a.is_storage <;> simp [hs]

theorem rcOffset_congr {i1 i2 : Info} (h : i1.has_readconst = i2.has_readconst) :
    rcOffset i1 = rcOffset i2 := by
  unfold rcOffset; rw [h]

theorem built_bitset_buffers (info : Info) (rt : RuntimeInfo) (p : Profile) (st : Nat)
    (S : StageSpecialization) (h : build info rt p st = some S)
    (i : Nat) (hi : i < info.buffers.length) :
    S.bitset.testBit (rcOffset info + i) = (info.buffers.getD i none).isSome := by
  obtain ⟨-, -, -, -, -, -, -, -, -, -, hb⟩ := build_some_parts info rt p st S h
  cases hres : (info.buffers.getD i none).isSome with
  | true => exact (hb _).mpr (Or.inl ⟨i, hi, rfl, hres⟩)
  | false =>
    cases hbit : S.bitset.testBit (rcOffset info + i) with
    | false => rfl
    | true =>
      exfalso
      rcases (hb _).mp hbit with ⟨j, hj, he, hs⟩ | ⟨j, hj, he, hs⟩ |
        ⟨j, hj, he, hs⟩ | ⟨j, hj, he, hs⟩
      · have : j = i := by omega
        subst this
        rw [hres] at hs
        exact absurd hs (by simp)
      · omega
      · omega
      · omega

theorem built_bitset_texbuffers (info : Info) (rt : RuntimeInfo) (p : Profile) (st : Nat)
    (S : StageSpecialization) (h : build info rt p st = some S)
    (i : Nat) (hi : i < info.texture_buffers.length) :
    S.bitset.testBit (rcOffset info + info.buffers.length + i) =
      (info.texture_buffers.getD i none).isSome := by
  obtain ⟨-, -, -, -, -, -, -, -, -, -, hb⟩ := build_some_parts info rt p st S h
  cases hres : (info.texture_buffers.getD i none).isSome with
  | true => exact (hb _).mpr (Or.inr (Or.inl ⟨i, hi, rfl, hres⟩))
  | false =>
    cases hbit : S.bitset.testBit (rcOffset info + info.buffers.length + i) with
    | false => rfl
    | true =>
      exfalso
      rcases (hb _).mp hbit with ⟨j, hj, he, hs⟩ | ⟨j, hj, he, hs⟩ |
        ⟨j, hj, he, hs⟩ | ⟨j, hj, he, hs⟩
      · omega
      · have : j = i := by omega
        subst this
        rw [hres] at hs
        exact absurd hs (by simp)
      · omega
      · omega

theorem built_bitset_images (info : Info) (rt : RuntimeInfo) (p : Profile) (st : Nat)
    (S : StageSpecialization) (h : build info rt p st = some S)
    (i : Nat) (hi : i < info.images.length) :
    S.bitset.testBit
        (rcOffset info + info.buffers.length + info.texture_buffers.length + i) =
      (info.images.getD i none).isSome := by
  obtain ⟨-, -, -, -, -, -, -, -, -, -, hb⟩ := build_some_parts info rt p st S h
  cases hres : (info.images.getD i none).isSome with
  | true => exact (hb _).mpr (Or.inr (Or.inr (Or.inl ⟨i, hi, rfl, hres⟩)))
  | false =>
    cases hbit : S.bitset.testBit
        (rcOffset info + info.buffers.length + info.texture_buffers.length + i) with
    | false => rfl
    | true =>
      exfalso
      rcases (hb _).mp hbit with ⟨j, hj, he, hs⟩ | ⟨j, hj, he, hs⟩ |
        ⟨j, hj, he, hs⟩ | ⟨j, hj, he, hs⟩
      · omega
      · omega
      · have : j = i := by omega
        subst this
        rw [hres] at hs
        exact absurd hs (by simp)
      · omega

theorem built_bitset_fmasks (info : Info) (rt : RuntimeInfo) (p : Profile) (st : Nat)
    (S : StageSpecialization) (h : build info rt p st = some S)
    (i : Nat) (hi : i < info.fmasks.length) :
    S.bitset.testBit
        (rcOffset info + info.buffers.length + info.texture_buffers.length +
          info.images.length + i) =
      (info.fmasks.getD i none).isSome := by
  obtain ⟨-, -, -, -, -, -, -, -, -, -, hb⟩ := build_some_parts info rt p st S h
  cases hres : (info.fmasks.getD i none).isSome with
  | true => exact (hb _).mpr (Or.inr (Or.inr (Or.inr ⟨i, hi, rfl, hres⟩)))
  | false =>
    cases hbit : S.bitset.testBit
        (rcOffset info + info.buffers.length + info.texture_buffers.length +
          info.images.length + i) with
    | false => rfl
    | true =>
      exfalso
      rcases (hb _).mp hbit with ⟨j, hj, he, hs⟩ | ⟨j, hj, he, hs⟩ |
        ⟨j, hj, he, hs⟩ | ⟨j, hj, he, hs⟩
      · omega
      · omega
      · omega
      · have : j = i := by omega
        subst this
        rw [hres] at hs
        exact absurd hs (by simp)

theorem built_bitset_outside (info : Info) (rt : RuntimeInfo) (p : Profile) (st : Nat)
    (S : StageSpecialization) (h : build info rt p st = some S)
    (j : Nat)
    (hj : j < rcOffset info ∨
      rcOffset info + info.buffers.length + info.texture_buffers.length +
        info.images.length + info.fmasks.length ≤ j) :
    S.bitset.testBit j = false := by
  obtain ⟨-, -, -, -, -, -, -, -, -, -, hb⟩ := build_some_parts info rt p st S h
  cases hbit : S.bitset.testBit j with
  | false => rfl
  | true =>
    exfalso
    rcases (hb _).mp hbit with ⟨i, hi, he, -⟩ | ⟨i, hi, he, -⟩ |
      ⟨i, hi, he, -⟩ | ⟨i, hi, he, -⟩ <;> omega

theorem bufferBeq_iff (a b : BufferSpecialization) :
    bufferBeq a b = true ↔ a.stride = b.stride ∧ a.is_storage = b.is_storage := by
  unfold bufferBeq
  simp only [Bool.and_eq_true, decide_eq_true_eq, Bool.or_eq_true]
  constructor
  · rintro ⟨⟨h1, h2⟩, -⟩
    exact ⟨h1, h2⟩
  · rintro ⟨h1, h2⟩
    refine ⟨⟨h1, h2⟩, ?_⟩
    cases hs : a.is_storage with
    | true => exact Or.inr rfl
    | false =>
      refine Or.inl ?_
      rw [← h2, hs]
      simp

/-! Concrete fixtures used by the witness theorems. -/

/-- Baseline runtime configuration. -/
def rt0 : RuntimeInfo :=
  { hs_info := 0, vs_info := 0, rest := 0 }

/-- Profile without legacy vertex-attribute support. -/
def prof0 : Profile :=
  { support_legacy_vertex_attributes := false }

/-- Profile with legacy vertex-attribute support. -/
def profLegacy : Profile :=
  { support_legacy_vertex_attributes := true }

/-- A provider with no resources at all. -/
def info0 : Info :=
  { stage := Stage.Compute
    l_stage := LogicalStage.Compute
    has_readconst := false
    fetch_shader := none
    buffers := []
    texture_buffers := []
    images := []
    fmasks := []
    samplers := []
    tess_constants := 0 }

/-- The specialization built from `info0`. -/
def spec0 : StageSpecialization :=
  { info := info0
    runtime_info := rt0
    fetch_shader_data := none
    vs_attribs := []
    bitset := 0
    buffers := []
    tex_buffers := []
    images := []
    fmasks := []
    samplers := []
    start := 0 }

/-- A provider with mixed resolution outcomes across all four tracked
categories and a read-constant slot. -/
def infoMix : Info :=
  { stage := Stage.Fragment
    l_stage := LogicalStage.Fragment
    has_readconst := true
    fetch_shader := none
    buffers := [some ⟨16, 256, false⟩, none]
    texture_buffers := [some ⟨true, 5, 7⟩]
    images := [none]
    fmasks := [some ⟨4, 4⟩]
    samplers := []
    tess_constants := 0 }

/-- The specialization built from `infoMix`: bits 1 (first buffer),
3 (texture buffer) and 5 (fmask) are set, giving mask 42. -/
def specMix : StageSpecialization :=
  { info := infoMix
    runtime_info := rt0
    fetch_shader_data := none
    vs_attribs := []
    bitset := 42
    buffers := [{ stride := 16, is_storage := false, size := 256 },
                { stride := 0, is_storage := false, size := 0 }]
    tex_buffers := [{ is_integer := true, dst_select := 5, num_conversion := 7 }]
    images := [{ type := ImageType.Color2D, is_integer := false, is_storage := false,
                 dst_select := 0, num_conversion := 0 }]
    fmasks := [{ width := 4, height := 4 }]
    samplers := []
    start := 0 }

/-! The claims. -/

/-- Claim C2: for all `BufferSpecialization` values `a` and `b`,
`a == b` holds if and only if the strides are equal and the storage
flags are equal; the `size` field never affects the result of the
comparison for any input values. -/
theorem c2_buffer_size_never_discriminates (a b : BufferSpecialization) :
    (bufferBeq a b = true ↔ a.stride = b.stride ∧ a.is_storage = b.is_storage) ∧
    (∀ s1 s2 : Nat,
      bufferBeq { a with size := s1 } { b with size := s2 } = bufferBeq a b) := by
  refine ⟨bufferBeq_iff a b, fun s1 s2 => ?_⟩
  rw [Bool.eq_iff_iff, bufferBeq_iff, bufferBeq_iff]

/-- Claim C4: the comparator checks sampler records element-wise with no
bitset gating: for same-shape specializations, a sampler mismatch at any
index makes `Equal` return false, regardless of any validity bits. -/
theorem c4_sampler_strict (a b : StageSpecialization) (i : Nat)
    (_hlen : a.samplers.length = b.samplers.length)
    (hi : i < a.samplers.length)
    (hne : a.samplers.getD i default ≠ b.samplers.getD i default) :
    specEq a b = false := by
  rw [← Bool.not_eq_true, specEq_eq_true_iff]
  intro h
  exact hne (h.2.2.2.2.2.2.2.2.2 i hi)

/-- Claim C7: `Equal(A, A)` is true for every specialization produced by
the builder. -/
theorem c7_reflexivity (info : Info) (rt : RuntimeInfo) (p : Profile) (st : Nat)
    (A : StageSpecialization) (_h : build info rt p st = some A) :
    specEq A A = true := by
  rw [specEq_eq_true_iff]
  exact ⟨rfl, rfl, rfl, fun i _ => rfl, rfl, fun i _ _ => bufferBeq_refl _,
    fun i _ _ => rfl, fun i _ _ => rfl, fun i _ _ => rfl, fun i _ => rfl⟩

/-- Witness for C7 at the empty provider. -/
theorem c7_witness :
    build info0 rt0 prof0 0 = some spec0 ∧ specEq spec0 spec0 = true :=
  ⟨by decide, c7_reflexivity info0 rt0 prof0 0 spec0 (by decide)⟩

/-- Claim C9: when the number of tracked slots (read-constant slot plus
the four tracked descriptor counts) does not exceed the bitset capacity,
every `bitset.set` index is in range, so the out-of-range failure branch
is unreachable and the builder is total. -/
theorem c9_bitset_capacity (info : Info) (rt : RuntimeInfo) (p : Profile) (st : Nat)
    (h : rcOffset info + info.buffers.length + info.texture_buffers.length +
        info.images.length + info.fmasks.length ≤ MaxStageResources) :
    (build info rt p st).isSome = true := by
  have h1 : (forEachSharpBind fillBuffer default info.buffers
      (rcOffset info) 0).isSome = true := by
    rw [forEachSharpBind_isSome]
    intro i hi _
    omega
  obtain ⟨⟨l1, b1, bs1⟩, e1⟩ := Option.isSome_iff_exists.mp h1
  obtain ⟨hl1, hb1⟩ := forEachSharpBind_some_spec _ _ _ _ _ _ _ _ e1
  subst hb1
  have h2 : (forEachSharpBind fillTexBuffer default info.texture_buffers
      (rcOffset info + info.buffers.length) bs1).isSome = true := by
    rw [forEachSharpBind_isSome]
    intro i hi _
    omega
  obtain ⟨⟨l2, b2, bs2⟩, e2⟩ := Option.isSome_iff_exists.mp h2
  obtain ⟨hl2, hb2⟩ := forEachSharpBind_some_spec _ _ _ _ _ _ _ _ e2
  subst hb2
  have h3 : (forEachSharpBind fillImage default info.images
      (rcOffset info + info.buffers.length + info.texture_buffers.length)
      bs2).isSome = true := by
    rw [forEachSharpBind_isSome]
    intro i hi _
    omega
  obtain ⟨⟨l3, b3, bs3⟩, e3⟩ := Option.isSome_iff_exists.mp h3
  obtain ⟨hl3, hb3⟩ := forEachSharpBind_some_spec _ _ _ _ _ _ _ _ e3
  subst hb3
  have h4 : (forEachSharpBind fillFMask default info.fmasks
      (rcOffset info + info.buffers.length + info.texture_buffers.length +
        info.images.length) bs3).isSome = true := by
    rw [forEachSharpBind_isSome]
    intro i hi _
    omega
  obtain ⟨⟨l4, b4, bs4⟩, e4⟩ := Option.isSome_iff_exists.mp h4
  simp only [build]
  rw [e1, Option.some_bind]
  dsimp only
  rw [e2, Option.some_bind]
  dsimp only
  rw [e3, Option.some_bind]
  dsimp only
  rw [e4]
  simp

/-- Witness for C9: `infoMix` declares six tracked slots, within the
64-slot capacity, so its build succeeds. -/
theorem c9_witness :
    rcOffset infoMix + infoMix.buffers.length + infoMix.texture_buffers.length +
      infoMix.images.length + infoMix.fmasks.length ≤ MaxStageResources ∧
    (build infoMix rt0 prof0 0).isSome = true :=
  ⟨by decide, c9_bitset_capacity infoMix rt0 prof0 0 (by decide)⟩

/-- Claim C10: a buffer descriptor that resolves as a storage buffer
leaves the built record's `size` at its default 0; `size` is populated
only for non-storage buffers. -/
theorem c10_storage_size_zero (info : Info) (rt : RuntimeInfo) (p : Profile)
    (st : Nat) (S : StageSpecialization) (h : build info rt p st = some S)
    (i : Nat) (hi : i < info.buffers.length) (sh : BufferSharp)
    (hsh : info.buffers.getD i none = some sh) (hst : sh.is_storage = true) :
    (S.buffers.getD i default).size = 0 := by
  obtain ⟨-, -, -, -, hbuf, -, -, -, -, -, -⟩ := build_some_parts info rt p st S h
  rw [hbuf, getD_map_of_lt (fillOpt fillBuffer default) info.buffers default none i hi,
    hsh]
  simp [fillOpt, fillBuffer, hst]

/-- Claim C6: the builder's binding counter starts at 0, consumes one
slot for a declared read-constant, then exactly one slot per descriptor
in the fixed order buffers, texture buffers, images, fmasks — resolved
or not — and the bitset bit at each descriptor's binding index is set if
and only if that descriptor resolved; no bit outside the consumed range
(including the read-constant slot itself) is ever set. -/
theorem c6_binding_discipline (info : Info) (rt : RuntimeInfo) (p : Profile)
    (st : Nat) (S : StageSpecialization) (h : build info rt p st = some S) :
    (∀ i, i < info.buffers.length →
       S.bitset.testBit (rcOffset info + i) = (info.buffers.getD i none).isSome) ∧
    (∀ i, i < info.texture_buffers.length →
       S.bitset.testBit (rcOffset info + info.buffers.length + i) =
         (info.texture_buffers.getD i none).isSome) ∧
    (∀ i, i < info.images.length →
       S.bitset.testBit (rcOffset info + info.buffers.length +
           info.texture_buffers.length + i) =
         (info.images.getD i none).isSome) ∧
    (∀ i, i < info.fmasks.length →
       S.bitset.testBit (rcOffset info + info.buffers.length +
           info.texture_buffers.length + info.images.length + i) =
         (info.fmasks.getD i none).isSome) ∧
    (∀ j, (j < rcOffset info ∨
        rcOffset info + info.buffers.length + info.texture_buffers.length +
          info.images.length + info.fmasks.length ≤ j) →
       S.bitset.testBit j = false) :=
  ⟨built_bitset_buffers info rt p st S h,
   built_bitset_texbuffers info rt p st S h,
   built_bitset_images info rt p st S h,
   built_bitset_fmasks info rt p st S h,
   built_bitset_outside info rt p st S h⟩

/-- Witness for C6 at the mixed-resolution provider: the resolved first
buffer has its bit set at index 1, and the read-constant slot bit 0
stays unset. -/
theorem c6_witness :
    build infoMix rt0 prof0 0 = some specMix ∧
    specMix.bitset.testBit (rcOffset infoMix + 0) =
      (infoMix.buffers.getD 0 none).isSome ∧
    specMix.bitset.testBit 0 = false := by
  have h := c6_binding_discipline infoMix rt0 prof0 0 specMix (by decide)
  exact ⟨by decide, h.1 0 (by decide), h.2.2.2.2 0 (Or.inl (by decide))⟩

/-- A vertex-stage provider carrying a fetch shader. -/
def infoFetchLegacy : Info :=
  { stage := Stage.Vertex
    l_stage := LogicalStage.Vertex
    has_readconst := false
    fetch_shader := some { attributes := [some 3] }
    buffers := []
    texture_buffers := []
    images := []
    fmasks := []
    samplers := []
    tess_constants := 0 }

/-- The specialization built from `infoFetchLegacy` under the legacy
profile: the parse result is stored even though the legacy gate fails,
while `vs_attribs` stays empty. -/
def specFetchLegacy : StageSpecialization :=
  { info := infoFetchLegacy
    runtime_info := rt0
    fetch_shader_data := some { attributes := [some 3] }
    vs_attribs := []
    bitset := 0
    buffers := []
    tex_buffers := []
    images := []
    fmasks := []
    samplers := []
    start := 0 }

/-- Counterexample to claim C3: the constructor assigns the fetch-shader
parse result unconditionally. Building a vertex-stage provider with a
fetch shader under a profile that DOES support legacy vertex attributes
still yields a present `fetch_shader_data`, although the claimed gating
condition (vertex stage and no legacy support) is false. -/
theorem c3_counterexample :
    build infoFetchLegacy rt0 profLegacy 0 = some specFetchLegacy ∧
    specFetchLegacy.fetch_shader_data.isSome = true ∧
    profLegacy.support_legacy_vertex_attributes = true ∧
    ¬ (infoFetchLegacy.stage = Stage.Vertex ∧
       profLegacy.support_legacy_vertex_attributes = false) := by
  refine ⟨by decide, by decide, by decide, ?_⟩
  rintro ⟨-, hfalse⟩
  exact absurd hfalse (by decide)

/-- Claim C3 as amended: the fetch-shader bytecode is parsed into
`fetch_shader_data` unconditionally — for every stage and profile the
stored value is exactly the parser's result, so it is present exactly
when the parser yields data; the vertex-stage/non-legacy-profile
condition gates only the `vs_attribs` specialization pass, which stays
empty whenever that condition fails. -/
theorem c3_fetch_parse_unconditional (info : Info) (rt : RuntimeInfo)
    (p : Profile) (st : Nat) (S : StageSpecialization)
    (h : build info rt p st = some S) :
    S.fetch_shader_data = parseFetchShader info ∧
    (¬ (info.stage = Stage.Vertex ∧ info.fetch_shader.isSome = true ∧
        p.support_legacy_vertex_attributes = false) →
      S.vs_attribs = []) := by
  obtain ⟨-, -, -, hfetch, -, -, -, -, -, hvs, -⟩ := build_some_parts info rt p st S h
  refine ⟨hfetch, fun hc => ?_⟩
  rw [hvs]
  cases hf : info.fetch_shader with
  | none => rfl
  | some f =>
    have hcond : ¬ (info.stage = Stage.Vertex ∧
        p.support_legacy_vertex_attributes = false) := by
      intro hcond
      exact hc ⟨hcond.1, by rw [hf]; rfl, hcond.2⟩
    simp [hcond]

/-- Witness for the amended C3: the legacy-profile vertex build stores
the parser's result and leaves `vs_attribs` empty. -/
theorem c3_witness :
    build infoFetchLegacy rt0 profLegacy 0 = some specFetchLegacy ∧
    specFetchLegacy.fetch_shader_data = parseFetchShader infoFetchLegacy ∧
    specFetchLegacy.vs_attribs = [] := by
  have h := c3_fetch_parse_unconditional infoFetchLegacy rt0 profLegacy 0
    specFetchLegacy (by decide)
  exact ⟨by decide, h.1, h.2 (by decide)⟩

/-- A provider whose only tracked resource is a single image sharp,
parametric in the shared skeleton (stage, logical stage, read-constant
flag, fetch shader, tessellation constants). -/
def imgInfo (st : Stage) (ls : LogicalStage) (hrc : Bool)
    (fs : Option FetchShaderData) (tc : Nat) (s : ImageSharp) : Info :=
  { stage := st
    l_stage := ls
    has_readconst := hrc
    fetch_shader := fs
    buffers := []
    texture_buffers := []
    images := [some s]
    fmasks := []
    samplers := []
    tess_constants := tc }

/-- Claim C5: two specializations that each resolved their single image
slot. If both are storage images and the destination component mappings
differ, `Equal` is false (storage images compare the mapping); if both
are non-storage with identical type, integer-ness and conversion, the
mapping is not populated in either record, so `Equal` is true even when
the hardware mappings differ. -/
theorem c5_image_dst_select (st : Stage) (ls : LogicalStage) (hrc : Bool)
    (fs : Option FetchShaderData) (tc : Nat) (rt : RuntimeInfo) (p : Profile)
    (bd : Nat) (s1 s2 : ImageSharp) (A B : StageSpecialization)
    (hA : build (imgInfo st ls hrc fs tc s1) rt p bd = some A)
    (hB : build (imgInfo st ls hrc fs tc s2) rt p bd = some B) :
    (s1.is_storage = true → s2.is_storage = true → s1.dst_select ≠ s2.dst_select →
      specEq A B = false) ∧
    (s1.is_storage = false → s2.is_storage = false → s1.type = s2.type →
      s1.is_integer = s2.is_integer → s1.num_conversion = s2.num_conversion →
      specEq A B = true) := by
  obtain ⟨hAinfo, hAstart, hArt, hAfetch, hAbuf, hAtex, hAimg, hAfm, hAsamp,
    hAvs, -⟩ := build_some_parts _ _ _ _ _ hA
  obtain ⟨hBinfo, hBstart, hBrt, hBfetch, hBbuf, hBtex, hBimg, hBfm, hBsamp,
    hBvs, -⟩ := build_some_parts _ _ _ _ _ hB
  simp only [imgInfo, List.map_cons, List.map_nil, fillOpt] at hAbuf hAtex hAimg hAfm hAfetch
  simp only [imgInfo, List.map_cons, List.map_nil, fillOpt] at hBbuf hBtex hBimg hBfm hBfetch
  have hAsamp' : A.samplers = [] := by
    rw [hAsamp]; rfl
  have hBsamp' : B.samplers = [] := by
    rw [hBsamp]; rfl
  constructor
  · intro hs1 hs2 hne
    rw [← Bool.not_eq_true, specEq_eq_true_iff]
    intro hEq
    have himg := hEq.2.2.2.2.2.2.2.1
    have hbit : B.bitset.testBit (rcOffset (imgInfo st ls hrc fs tc s2)) = true := by
      have := built_bitset_images (imgInfo st ls hrc fs tc s2) rt p bd B hB 0
        (by simp [imgInfo])
      simpa [imgInfo] using this
    have hidx : rcOffset A.info + A.buffers.length + A.tex_buffers.length + 0 =
        rcOffset (imgInfo st ls hrc fs tc s2) := by
      rw [hAinfo, hAbuf, hAtex]
      simp [imgInfo, rcOffset]
    have hieq := himg 0 (by rw [hAimg]; simp) (by rw [hidx]; exact hbit)
    rw [hAimg, hBimg] at hieq
    simp only [List.getD_cons_zero] at hieq
    have hdst := congrArg ImageSpecialization.dst_select hieq
    simp [fillImage, hs1, hs2] at hdst
    exact hne hdst
  · intro hs1 hs2 hty hint hconv
    rw [specEq_eq_true_iff]
    refine ⟨?_, ?_, ?_, ?_, ?_, ?_, ?_, ?_, ?_, ?_⟩
    · rw [hAstart, hBstart]
    · rw [hArt, hBrt]
      simp [tessInit, imgInfo]
    · rw [hAfetch, hBfetch]
    · intro i hi
      have hvseq : A.vs_attribs = B.vs_attribs := by
        rw [hAvs, hBvs]
        simp [imgInfo]
      rw [hvseq]
    · simp [hAinfo, hBinfo, imgInfo]
    · intro i hi
      rw [hAbuf] at hi
      exact absurd hi (by simp)
    · intro i hi
      rw [hAtex] at hi
      exact absurd hi (by simp)
    · intro i hi _
      have hi0 : i = 0 := by
        rw [hAimg] at hi
        simpa using Nat.lt_one_iff.mp (by simpa using hi)
      subst hi0
      rw [hAimg, hBimg]
      simp [fillImage, hs1, hs2, hty, hint, hconv]
    · intro i hi
      rw [hAfm] at hi
      exact absurd hi (by simp)
    · intro i hi
      rw [hAsamp'] at hi
      exact absurd hi (by simp)

/-- A storage image sharp with destination mapping 1. -/
def imgSharpStor1 : ImageSharp :=
  { type := ImageType.Color2D, is_integer := false, is_storage := true,
    dst_select := 1, num_conversion := 0 }

/-- A storage image sharp with destination mapping 2. -/
def imgSharpStor2 : ImageSharp :=
  { type := ImageType.Color2D, is_integer := false, is_storage := true,
    dst_select := 2, num_conversion := 0 }

/-- The specialization built from the single-image provider over
`imgSharpStor1`. -/
def specImg1 : StageSpecialization :=
  { info := imgInfo Stage.Fragment LogicalStage.Fragment false none 0 imgSharpStor1
    runtime_info := rt0
    fetch_shader_data := none
    vs_attribs := []
    bitset := 1
    buffers := []
    tex_buffers := []
    images := [{ type := ImageType.Color2D, is_integer := false, is_storage := true,
                 dst_select := 1, num_conversion := 0 }]
    fmasks := []
    samplers := []
    start := 0 }

/-- The specialization built from the single-image provider over
`imgSharpStor2`. -/
def specImg2 : StageSpecialization :=
  { info := imgInfo Stage.Fragment LogicalStage.Fragment false none 0 imgSharpStor2
    runtime_info := rt0
    fetch_shader_data := none
    vs_attribs := []
    bitset := 1
    buffers := []
    tex_buffers := []
    images := [{ type := ImageType.Color2D, is_integer := false, is_storage := true,
                 dst_select := 2, num_conversion := 0 }]
    fmasks := []
    samplers := []
    start := 0 }

/-- Witness for C5 at the storage case: differing mappings break
equality. -/
theorem c5_witness :
    build (imgInfo Stage.Fragment LogicalStage.Fragment false none 0 imgSharpStor1)
      rt0 prof0 0 = some specImg1 ∧
    build (imgInfo Stage.Fragment LogicalStage.Fragment false none 0 imgSharpStor2)
      rt0 prof0 0 = some specImg2 ∧
    specEq specImg1 specImg2 = false := by
  have h := c5_image_dst_select Stage.Fragment LogicalStage.Fragment false none 0
    rt0 prof0 0 imgSharpStor1 imgSharpStor2 specImg1 specImg2 (by decide) (by decide)
  exact ⟨by decide, by decide, h.1 rfl rfl (by decide)⟩

theorem specEq_set_buffer (a b : StageSpecialization) (i : Nat)
    (r : BufferSpecialization)
    (hbit : b.bitset.testBit (rcOffset a.info + i) = false) :
    specEq { a with buffers := a.buffers.set i r } b = specEq a b := by
  rw [Bool.eq_iff_iff, specEq_eq_true_iff, specEq_eq_true_iff]
  simp only [List.length_set]
  constructor
  · rintro ⟨h1, h2, h3, h4, h5, h6, h7, h8, h9, h10⟩
    refine ⟨h1, h2, h3, h4, h5, fun iq hq hq2 => ?_, h7, h8, h9, h10⟩
    by_cases he : i = iq
    · subst he
      rw [hbit] at hq2
      exact absurd hq2 (by simp)
    · have := h6 iq hq hq2
      rwa [getD_set_ne _ _ _ _ _ he] at this
  · rintro ⟨h1, h2, h3, h4, h5, h6, h7, h8, h9, h10⟩
    refine ⟨h1, h2, h3, h4, h5, fun iq hq hq2 => ?_, h7, h8, h9, h10⟩
    by_cases he : i = iq
    · subst he
      rw [hbit] at hq2
      exact absurd hq2 (by simp)
    · rw [getD_set_ne _ _ _ _ _ he]
      exact h6 iq hq hq2

theorem specEq_set_texbuffer (a b : StageSpecialization) (i : Nat)
    (r : TextureBufferSpecialization)
    (hbit : b.bitset.testBit (rcOffset a.info + a.buffers.length + i) = false) :
    specEq { a with tex_buffers := a.tex_buffers.set i r } b = specEq a b := by
  rw [Bool.eq_iff_iff, specEq_eq_true_iff, specEq_eq_true_iff]
  simp only [List.length_set]
  constructor
  · rintro ⟨h1, h2, h3, h4, h5, h6, h7, h8, h9, h10⟩
    refine ⟨h1, h2, h3, h4, h5, h6, fun iq hq hq2 => ?_, h8, h9, h10⟩
    by_cases he : i = iq
    · subst he
      rw [hbit] at hq2
      exact absurd hq2 (by simp)
    · have := h7 iq hq hq2
      rwa [getD_set_ne _ _ _ _ _ he] at this
  · rintro ⟨h1, h2, h3, h4, h5, h6, h7, h8, h9, h10⟩
    refine ⟨h1, h2, h3, h4, h5, h6, fun iq hq hq2 => ?_, h8, h9, h10⟩
    by_cases he : i = iq
    · subst he
      rw [hbit] at hq2
      exact absurd hq2 (by simp)
    · rw [getD_set_ne _ _ _ _ _ he]
      exact h7 iq hq hq2

theorem specEq_set_image (a b : StageSpecialization) (i : Nat)
    (r : ImageSpecialization)
    (hbit : b.bitset.testBit
      (rcOffset a.info + a.buffers.length + a.tex_buffers.length + i) = false) :
    specEq { a with images := a.images.set i r } b = specEq a b := by
  rw [Bool.eq_iff_iff, specEq_eq_true_iff, specEq_eq_true_iff]
  simp only [List.length_set]
  constructor
  · rintro ⟨h1, h2, h3, h4, h5, h6, h7, h8, h9, h10⟩
    refine ⟨h1, h2, h3, h4, h5, h6, h7, fun iq hq hq2 => ?_, h9, h10⟩
    by_cases he : i = iq
    · subst he
      rw [hbit] at hq2
      exact absurd hq2 (by simp)
    · have := h8 iq hq hq2
      rwa [getD_set_ne _ _ _ _ _ he] at this
  · rintro ⟨h1, h2, h3, h4, h5, h6, h7, h8, h9, h10⟩
    refine ⟨h1, h2, h3, h4, h5, h6, h7, fun iq hq hq2 => ?_, h9, h10⟩
    by_cases he : i = iq
    · subst he
      rw [hbit] at hq2
      exact absurd hq2 (by simp)
    · rw [getD_set_ne _ _ _ _ _ he]
      exact h8 iq hq hq2

theorem specEq_set_fmask (a b : StageSpecialization) (i : Nat)
    (r : FMaskSpecialization)
    (hbit : b.bitset.testBit
      (rcOffset a.info + a.buffers.length + a.tex_buffers.length +
        a.images.length + i) = false) :
    specEq { a with fmasks := a.fmasks.set i r } b = specEq a b := by
  rw [Bool.eq_iff_iff, specEq_eq_true_iff, specEq_eq_true_iff]
  simp only [List.length_set]
  constructor
  · rintro ⟨h1, h2, h3, h4, h5, h6, h7, h8, h9, h10⟩
    refine ⟨h1, h2, h3, h4, h5, h6, h7, h8, fun iq hq hq2 => ?_, h10⟩
    by_cases he : i = iq
    · subst he
      rw [hbit] at hq2
      exact absurd hq2 (by simp)
    · have := h9 iq hq hq2
      rwa [getD_set_ne _ _ _ _ _ he] at this
  · rintro ⟨h1, h2, h3, h4, h5, h6, h7, h8, h9, h10⟩
    refine ⟨h1, h2, h3, h4, h5, h6, h7, h8, fun iq hq hq2 => ?_, h10⟩
    by_cases he : i = iq
    · subst he
      rw [hbit] at hq2
      exact absurd hq2 (by simp)
    · rw [getD_set_ne _ _ _ _ _ he]
      exact h9 iq hq hq2

theorem specEq_false_of_buffer_mismatch (a b : StageSpecialization) (i : Nat)
    (hi : i < a.buffers.length)
    (hbit : b.bitset.testBit (rcOffset a.info + i) = true)
    (hne : bufferBeq (a.buffers.getD i default) (b.buffers.getD i default) = false) :
    specEq a b = false := by
  rw [← Bool.not_eq_true, specEq_eq_true_iff]
  intro h
  have := h.2.2.2.2.2.1 i hi hbit
  rw [hne] at this
  exact absurd this (by simp)

theorem specEq_false_of_texbuffer_mismatch (a b : StageSpecialization) (i : Nat)
    (hi : i < a.tex_buffers.length)
    (hbit : b.bitset.testBit (rcOffset a.info + a.buffers.length + i) = true)
    (hne : a.tex_buffers.getD i default ≠ b.tex_buffers.getD i default) :
    specEq a b = false := by
  rw [← Bool.not_eq_true, specEq_eq_true_iff]
  intro h
  exact hne (h.2.2.2.2.2.2.1 i hi hbit)

theorem specEq_false_of_image_mismatch (a b : StageSpecialization) (i : Nat)
    (hi : i < a.images.length)
    (hbit : b.bitset.testBit
      (rcOffset a.info + a.buffers.length + a.tex_buffers.length + i) = true)
    (hne : a.images.getD i default ≠ b.images.getD i default) :
    specEq a b = false := by
  rw [← Bool.not_eq_true, specEq_eq_true_iff]
  intro h
  exact hne (h.2.2.2.2.2.2.2.1 i hi hbit)

theorem specEq_false_of_fmask_mismatch (a b : StageSpecialization) (i : Nat)
    (hi : i < a.fmasks.length)
    (hbit : b.bitset.testBit
      (rcOffset a.info + a.buffers.length + a.tex_buffers.length +
        a.images.length + i) = true)
    (hne : a.fmasks.getD i default ≠ b.fmasks.getD i default) :
    specEq a b = false := by
  rw [← Bool.not_eq_true, specEq_eq_true_iff]
  intro h
  exact hne (h.2.2.2.2.2.2.2.2.1 i hi hbit)

/-- Claim C1: for same-shape specializations, each buffer,
texture-buffer, image and fmask slot is compared only when the cached
key's bitset bit at its shared binding position is set: with the bit
unset, any content of the candidate's record at that slot leaves the
comparison verdict unchanged; with the bit set, unequal records (per the
per-type equality) force `Equal` to false. -/
theorem c1_cached_bit_gating (a b : StageSpecialization)
    (_hlb : a.buffers.length = b.buffers.length)
    (_hlt : a.tex_buffers.length = b.tex_buffers.length)
    (_hli : a.images.length = b.images.length)
    (_hlf : a.fmasks.length = b.fmasks.length) :
    (∀ i, i < a.buffers.length →
      (b.bitset.testBit (rcOffset a.info + i) = false →
        ∀ r, specEq { a with buffers := a.buffers.set i r } b = specEq a b) ∧
      (b.bitset.testBit (rcOffset a.info + i) = true →
        bufferBeq (a.buffers.getD i default) (b.buffers.getD i default) = false →
        specEq a b = false)) ∧
    (∀ i, i < a.tex_buffers.length →
      (b.bitset.testBit (rcOffset a.info + a.buffers.length + i) = false →
        ∀ r, specEq { a with tex_buffers := a.tex_buffers.set i r } b = specEq a b) ∧
      (b.bitset.testBit (rcOffset a.info + a.buffers.length + i) = true →
        a.tex_buffers.getD i default ≠ b.tex_buffers.getD i default →
        specEq a b = false)) ∧
    (∀ i, i < a.images.length →
      (b.bitset.testBit
          (rcOffset a.info + a.buffers.length + a.tex_buffers.length + i) = false →
        ∀ r, specEq { a with images := a.images.set i r } b = specEq a b) ∧
      (b.bitset.testBit
          (rcOffset a.info + a.buffers.length + a.tex_buffers.length + i) = true →
        a.images.getD i default ≠ b.images.getD i default →
        specEq a b = false)) ∧
    (∀ i, i < a.fmasks.length →
      (b.bitset.testBit
          (rcOffset a.info + a.buffers.length + a.tex_buffers.length +
            a.images.length + i) = false →
        ∀ r, specEq { a with fmasks := a.fmasks.set i r } b = specEq a b) ∧
      (b.bitset.testBit
          (rcOffset a.info + a.buffers.length + a.tex_buffers.length +
            a.images.length + i) = true →
        a.fmasks.getD i default ≠ b.fmasks.getD i default →
        specEq a b = false)) :=
  ⟨fun i hi =>
    ⟨fun hbit r => specEq_set_buffer a b i r hbit,
     fun hbit hne => specEq_false_of_buffer_mismatch a b i hi hbit hne⟩,
   fun i hi =>
    ⟨fun hbit r => specEq_set_texbuffer a b i r hbit,
     fun hbit hne => specEq_false_of_texbuffer_mismatch a b i hi hbit hne⟩,
   fun i hi =>
    ⟨fun hbit r => specEq_set_image a b i r hbit,
     fun hbit hne => specEq_false_of_image_mismatch a b i hi hbit hne⟩,
   fun i hi =>
    ⟨fun hbit r => specEq_set_fmask a b i r hbit,
     fun hbit hne => specEq_false_of_fmask_mismatch a b i hi hbit hne⟩⟩

/-- A fully-resolved storage buffer record used as replacement content. -/
def bufR99 : BufferSpecialization :=
  { stride := 99, is_storage := true, size := 7 }

/-- Witness for C1 at the mixed provider: the second buffer slot's
cached bit (binding index 2) is unset, so rewriting the candidate's
record there to an arbitrary fully-resolved record leaves the verdict
unchanged. -/
theorem c1_witness :
    1 < specMix.buffers.length ∧
    specMix.bitset.testBit (rcOffset specMix.info + 1) = false ∧
    specEq { specMix with buffers := specMix.buffers.set 1 bufR99 } specMix =
      specEq specMix specMix := by
  have h := c1_cached_bit_gating specMix specMix rfl rfl rfl rfl
  exact ⟨by decide, by decide, ((h.1 1 (by decide)).1 (by decide)) bufR99⟩

/-- Claim C8: mismatched read-constant presence between the two
providers makes `Equal` false; otherwise the comparator recomputes the
shared binding counter exactly as construction does, so that for a built
cached key the bit it consults for each category slot is precisely that
slot's resolution status from construction. -/
theorem c8_readconst_and_binding_recompute :
    (∀ a b : StageSpecialization,
      a.info.has_readconst ≠ b.info.has_readconst → specEq a b = false) ∧
    (∀ (infoB : Info) (rtB : RuntimeInfo) (pB : Profile) (stB : Nat)
       (B a : StageSpecialization),
      build infoB rtB pB stB = some B →
      a.info.has_readconst = infoB.has_readconst →
      a.buffers.length = infoB.buffers.length →
      a.tex_buffers.length = infoB.texture_buffers.length →
      a.images.length = infoB.images.length →
      a.fmasks.length = infoB.fmasks.length →
      (specEq a B = true ↔
        (a.start = B.start ∧ a.runtime_info = B.runtime_info ∧
         a.fetch_shader_data = B.fetch_shader_data ∧
         (∀ i, i < a.vs_attribs.length →
            a.vs_attribs.getD i default = B.vs_attribs.getD i default) ∧
         (∀ i, i < a.buffers.length → (infoB.buffers.getD i none).isSome = true →
            bufferBeq (a.buffers.getD i default) (B.buffers.getD i default) = true) ∧
         (∀ i, i < a.tex_buffers.length →
            (infoB.texture_buffers.getD i none).isSome = true →
            a.tex_buffers.getD i default = B.tex_buffers.getD i default) ∧
         (∀ i, i < a.images.length → (infoB.images.getD i none).isSome = true →
            a.images.getD i default = B.images.getD i default) ∧
         (∀ i, i < a.fmasks.length → (infoB.fmasks.getD i none).isSome = true →
            a.fmasks.getD i default = B.fmasks.getD i default) ∧
         (∀ i, i < a.samplers.length →
            a.samplers.getD i default = B.samplers.getD i default)))) := by
  constructor
  · intro a b hne
    rw [← Bool.not_eq_true, specEq_eq_true_iff]
    intro h
    exact hne h.2.2.2.2.1
  · intro infoB rtB pB stB B a hB hrc hlb hlt hli hlf
    obtain ⟨hBinfo, -, -, -, -, -, -, -, -, -, -⟩ := build_some_parts _ _ _ _ _ hB
    have hrcB : rcOffset a.info = rcOffset infoB := rcOffset_congr (by rw [hrc])
    rw [specEq_eq_true_iff]
    constructor
    · rintro ⟨h1, h2, h3, h4, -, h6, h7, h8, h9, h10⟩
      refine ⟨h1, h2, h3, h4, fun i hi hs => ?_, fun i hi hs => ?_,
        fun i hi hs => ?_, fun i hi hs => ?_, h10⟩
      · apply h6 i hi
        rw [hrcB, built_bitset_buffers infoB rtB pB stB B hB i (by omega)]
        exact hs
      · apply h7 i hi
        rw [hrcB, hlb,
          built_bitset_texbuffers infoB rtB pB stB B hB i (by omega)]
        exact hs
      · apply h8 i hi
        rw [hrcB, hlb, hlt,
          built_bitset_images infoB rtB pB stB B hB i (by omega)]
        exact hs
      · apply h9 i hi
        rw [hrcB, hlb, hlt, hli,
          built_bitset_fmasks infoB rtB pB stB B hB i (by omega)]
        exact hs
    · rintro ⟨h1, h2, h3, h4, h6, h7, h8, h9, h10⟩
      refine ⟨h1, h2, h3, h4, by rw [hrc, hBinfo], fun i hi hbit => ?_,
        fun i hi hbit => ?_, fun i hi hbit => ?_, fun i hi hbit => ?_, h10⟩
      · apply h6 i hi
        rw [hrcB, built_bitset_buffers infoB rtB pB stB B hB i (by omega)] at hbit
        exact hbit
      · apply h7 i hi
        rw [hrcB, hlb,
          built_bitset_texbuffers infoB rtB pB stB B hB i (by omega)] at hbit
        exact hbit
      · apply h8 i hi
        rw [hrcB, hlb, hlt,
          built_bitset_images infoB rtB pB stB B hB i (by omega)] at hbit
        exact hbit
      · apply h9 i hi
        rw [hrcB, hlb, hlt, hli,
          built_bitset_fmasks infoB rtB pB stB B hB i (by omega)] at hbit
        exact hbit

/-- The empty provider with a declared read-constant. -/
def infoRC : Info :=
  { info0 with has_readconst := true }

/-- A specialization value over `infoRC` (otherwise like `spec0`). -/
def spec0rc : StageSpecialization :=
  { spec0 with info := infoRC }

/-- Witness for C8: mismatched read-constant presence forces inequality,
and the characterization holds at the built mixed key. -/
theorem c8_witness :
    spec0rc.info.has_readconst ≠ spec0.info.has_readconst ∧
    specEq spec0rc spec0 = false ∧
    build infoMix rt0 prof0 0 = some specMix ∧
    (specEq specMix specMix = true ↔
      (specMix.start = specMix.start ∧
       specMix.runtime_info = specMix.runtime_info ∧
       specMix.fetch_shader_data = specMix.fetch_shader_data ∧
       (∀ i, i < specMix.vs_attribs.length →
          specMix.vs_attribs.getD i default = specMix.vs_attribs.getD i default) ∧
       (∀ i, i < specMix.buffers.length →
          (infoMix.buffers.getD i none).isSome = true →
          bufferBeq (specMix.buffers.getD i default)
            (specMix.buffers.getD i default) = true) ∧
       (∀ i, i < specMix.tex_buffers.length →
          (infoMix.texture_buffers.getD i none).isSome = true →
          specMix.tex_buffers.getD i default =
            specMix.tex_buffers.getD i default) ∧
       (∀ i, i < specMix.images.length →
          (infoMix.images.getD i none).isSome = true →
          specMix.images.getD i default = specMix.images.getD i default) ∧
       (∀ i, i < specMix.fmasks.length →
          (infoMix.fmasks.getD i none).isSome = true →
          specMix.fmasks.getD i default = specMix.fmasks.getD i default) ∧
       (∀ i, i < specMix.samplers.length →
          specMix.samplers.getD i default = specMix.samplers.getD i default))) :=
  ⟨by decide,
   c8_readconst_and_binding_recompute.1 spec0rc spec0 (by decide),
   by decide,
   c8_readconst_and_binding_recompute.2 infoMix rt0 prof0 0 specMix specMix
     (by decide) (by decide) (by decide) (by decide) (by decide) (by decide)⟩

/-- A one-sampler specialization with an unnormalized-coordinates flag
of false. -/
def sampSpecA : StageSpecialization :=
  { spec0 with samplers := [{ force_unnormalized := false }] }

/-- A one-sampler specialization with an unnormalized-coordinates flag
of true. -/
def sampSpecB : StageSpecialization :=
  { spec0 with samplers := [{ force_unnormalized := true }] }

/-- Witness for C4: a `force_unnormalized` mismatch at sampler index 0
makes the comparison false. -/
theorem c4_witness :
    sampSpecA.samplers.length = sampSpecB.samplers.length ∧
    0 < sampSpecA.samplers.length ∧
    sampSpecA.samplers.getD 0 default ≠ sampSpecB.samplers.getD 0 default ∧
    specEq sampSpecA sampSpecB = false :=
  ⟨by decide, by decide, by decide,
   c4_sampler_strict sampSpecA sampSpecB 0 (by decide) (by decide) (by decide)⟩

/-- A provider declaring a single storage buffer. -/
def infoStorBuf : Info :=
  { info0 with buffers := [some { stride := 32, size := 512, is_storage := true }] }

/-- The specialization built from `infoStorBuf`: bit 0 set, and the
record's `size` left at 0 because the buffer is storage. -/
def specStorBuf : StageSpecialization :=
  { spec0 with
      info := infoStorBuf
      bitset := 1
      buffers := [{ stride := 32, is_storage := true, size := 0 }] }

/-- Witness for C10: the storage buffer's hardware size 512 is not
copied into the built record. -/
theorem c10_witness :
    build infoStorBuf rt0 prof0 0 = some specStorBuf ∧
    infoStorBuf.buffers.getD 0 none =
      some { stride := 32, size := 512, is_storage := true } ∧
    (specStorBuf.buffers.getD 0 default).size = 0 :=
  ⟨by decide, by decide,
   c10_storage_size_zero infoStorBuf rt0 prof0 0 specStorBuf (by decide) 0
     (by decide) { stride := 32, size := 512, is_storage := true } (by decide) rfl⟩

end ShaderSpec
